import Mathlib

/-!
Shallow embedding of `src/app.py` (a single-endpoint Flask backend that
forwards a camera frame and a text command to an external multimodal model
and relays back the parsed JSON reply).

External libraries (Python `base64`, PIL, the `google.genai` client and
`json.loads`) are modelled as oracle fields of an `Env` structure: the
handler itself only threads their results.  Python exception messages
(`str(e)`) are modelled by representative message strings; the claims under
study depend only on which branch is taken and on the fixed message parts
produced by the handler itself.
-/

set_option autoImplicit false

namespace ColorVision

/-- JSON values as produced by Python `json.loads` / consumed by `jsonify`.
Numbers are modelled as exact rationals (they are only passed through,
never computed with). -/
inductive Json where
  | null
  | bool (b : Bool)
  | num (q : Rat)
  | str (s : String)
  | arr (elems : List Json)
  | obj (fields : List (String × Json))
  deriving Repr

/-- Python truthiness (`if not image_data_url`) restricted to JSON values:
`None`, `False`, `0`, `""`, `[]` and `{}` are falsy. -/
def pyTruthy : Json → Bool
  | .null => false
  | .bool b => b
  | .num q => decide (q ≠ 0)
  | .str s => decide (s ≠ "")
  | .arr elems => !elems.isEmpty
  | .obj fields => !fields.isEmpty

/-- First-match association lookup, the semantics of indexing a Python dict
whose items are the listed fields (keys of a parsed JSON object are unique,
so first-match agrees with dict lookup). -/
def assocLookup : List (String × Json) → String → Option Json
  | [], _ => none
  | (k, v) :: rest, key => if key = k then some v else assocLookup rest key

/-- Model of `data.get(key)`: returns `None` (here `Json.null`) when the key
is absent; raises `AttributeError` when `data` is not a dict (uncaught in
the handler). -/
def dictGet (data : Json) (key : String) : Except String Json :=
  match data with
  | .obj fields => .ok ((assocLookup fields key).getD .null)
  | _ => .error "AttributeError: object has no attribute get"

/-- Model of `data.get(key, default)` with an explicit default. -/
def dictGetD (data : Json) (key : String) (dflt : Json) : Except String Json :=
  match data with
  | .obj fields => .ok ((assocLookup fields key).getD dflt)
  | _ => .error "AttributeError: object has no attribute get"

/-- Characters removed by Python `str.strip()` (the ASCII whitespace set;
the handler is never exercised on the additional Unicode space code points,
which behave identically for the claims at hand). -/
def pyIsSpace (c : Char) : Bool :=
  c.toNat = 32 || c.toNat = 9 || c.toNat = 10 || c.toNat = 13 || c.toNat = 11 || c.toNat = 12

/-- Python `str.strip()`: drop leading and trailing whitespace. -/
def pyStrip (s : String) : String :=
  ⟨((s.toList.dropWhile pyIsSpace).reverse.dropWhile pyIsSpace).reverse⟩

/-- Model of `value.strip()` on the result of `data.get("command","")`:
succeeds only on strings; on any other JSON value Python raises
`AttributeError` (uncaught in the handler, since line 44 of `app.py` sits
outside every `try` block). -/
def stripAttr : Json → Except String String
  | .str s => .ok (pyStrip s)
  | _ => .error "AttributeError: object has no attribute strip"

/-- Model of `image_data_url.split(",", 1)` followed by unpacking into two
variables: `some (header, payload)` splits at the FIRST comma; `none` when
the string holds no comma (Python raises `ValueError: not enough values to
unpack`). -/
def splitFirstCommaAux : List Char → Option (List Char × List Char)
  | [] => none
  | c :: cs =>
    if c = ',' then some ([], cs)
    else
      match splitFirstCommaAux cs with
      | none => none
      | some (h, t) => some (c :: h, t)

/-- String version of `splitFirstCommaAux`. -/
def splitFirstComma (s : String) : Option (String × String) :=
  (splitFirstCommaAux s.toList).map fun p => (⟨p.1⟩, ⟨p.2⟩)

/-- Opaque stand-in for the PIL image object produced by
`Image.open(...).convert("RGB")`; the handler only forwards it. -/
structure PILImage where
  imageId : Nat
  deriving Repr, DecidableEq

/-- Outcome of `client.models.generate_content`: a reply whose `.text` is
read, an `APIError`, or any other exception. -/
inductive GenResult where
  | ok (text : String)
  | apiError (msg : String)
  | otherError (msg : String)
  deriving Repr, DecidableEq

/-- The external world the handler calls into: `base64.b64decode`,
`Image.open(...).convert("RGB")`, `generate_content` and `json.loads`.
Each is an arbitrary function; theorems quantify over it. -/
structure Env where
  b64decode : String → Except String (List Nat)
  openImage : List Nat → Except String PILImage
  generate : String → PILImage → GenResult
  jsonLoads : String → Except String Json

/-- Result of one HTTP request: either a response built by `jsonify` with a
status code, or an exception that escaped the handler (Flask then produces
a default HTML error page, not a JSON body). -/
inductive HttpResult where
  | response (status : Nat) (body : Json)
  | uncaught (msg : String)
  deriving Repr

/-- A handler run: its HTTP result plus the lines it printed to the
operational log. -/
structure HandlerOutput where
  result : HttpResult
  logs : List String
  deriving Repr

/-- The JSON error body `jsonify({"error": msg})`. -/
def errBody (msg : String) : Json :=
  .obj [("error", .str msg)]

/-- The f-string prompt built at lines 67-83 of `app.py`, with the stripped
user command interpolated at its single placeholder (the doubled braces of
the Python template render as literal braces). -/
def prompt_text (command : String) : String :=
  "\n    あなたは画像内の物体を検出し、ユーザーの指示に基づいて結果をフィルタリングし、JSON形式で正確なバウンディングボックス座標を返すエキスパートです。\n\n    【ユーザーの指示（最も重要な条件）】: \"" ++
    command ++
    "\"\n\n    【要件】:\n    1.  画像内の物体を検出し、**ユーザーの指示（色と物）に合致するもの**のみを選んでください。\n    2.  各オブジェクトの**バウンディングボックス**は、画像の正規化座標（0.0から1.0）として `[x_min, y_min, x_max, y_max]` の配列形式で出力してください。\n    3.  検出された各オブジェクトの**支配的な色**をHexコード（例: #FF0000）で出力してください。\n    4.  出力は必ず以下のJSONスキーマに従う、単一のJSON配列としてください。他のテキストや説明は一切含めないでください。\n\n    JSONスキーマ:\n    [\n      \x7b\"box\": [0.1, 0.2, 0.3, 0.4], \"name\": \"...\", \"color_hex\": \"#RRGGBB\"\x7d,\n      ...\n    ]\n    "

/-- Lines 51-56 of `app.py`: split the data URL at the first comma (the
header part is bound but never used) and base64-decode the payload.  A
non-string `image` value raises `AttributeError` at `.split`, a string with
no comma raises `ValueError` at unpacking, and `base64.b64decode` may
raise; all three are caught by the surrounding `except Exception`. -/
def decodeStep (env : Env) (image_data_url : Json) : Except String (List Nat) :=
  match image_data_url with
  | .str s =>
    match splitFirstComma s with
    | none => .error "not enough values to unpack (expected 2, got 1)"
    | some (_, encoded) => env.b64decode encoded
  | _ => .error "AttributeError: object has no attribute split"

/-- Lines 86-108 of `app.py`: the model call and the parsing of its reply,
with the handler logs of the two diagnostic branches. -/
def modelStep (env : Env) (command : String) (img_pil : PILImage) : HandlerOutput :=
  match env.generate (prompt_text command) img_pil with
  | .apiError m =>
    ⟨.response 500 (errBody ("Gemini API Error: " ++ m)),
      ["Failed prompt (API Error): " ++ (prompt_text command).take 200 ++ "..."]⟩
  | .otherError m =>
    ⟨.response 500 (errBody ("An unexpected error occurred: " ++ m)), []⟩
  | .ok text =>
    match env.jsonLoads text with
    | .error m =>
      ⟨.response 500 (errBody "Gemini did not return valid JSON or format was incorrect."),
        ["JSON Decode Error: " ++ m, "Gemini Raw Output: " ++ text]⟩
    | .ok json_output =>
      ⟨.response 200
          (.obj [("success", .bool true), ("detections", json_output),
                 ("command", .str command)]), []⟩

/-- Lines 47-108 of `app.py`: everything after the two `data.get` calls —
the presence check on `image`, the base64 decode, the PIL materialization
and the model call.  Every failure in this region is caught and turned into
a JSON error response. -/
def afterValidation (env : Env) (image_data_url : Json) (command : String) :
    HandlerOutput :=
  if pyTruthy image_data_url = false then
    ⟨.response 400 (errBody "No image data received"), []⟩
  else
    match decodeStep env image_data_url with
    | .error m => ⟨.response 500 (errBody ("Base64 decoding error: " ++ m)), []⟩
    | .ok image_bytes =>
      match env.openImage image_bytes with
      | .error m => ⟨.response 500 (errBody ("Image processing error: " ++ m)), []⟩
      | .ok img_pil => modelStep env command img_pil

/-- The `/analyze_frame` handler (lines 34-108 of `app.py`), as a function
of the startup outcome (`clientOk` is `client is not None`), the external
world and the parsed JSON request body.  Lines 42-44 (`data.get` and
`.strip()`) run outside every `try` block, so their `AttributeError`s
escape the handler. -/
def analyze_frame (clientOk : Bool) (env : Env) (data : Json) : HandlerOutput :=
  if clientOk = false then
    ⟨.response 500 (errBody "Gemini API client is not initialized. Check API Key."), []⟩
  else
    match dictGet data "image" with
    | .error e => ⟨.uncaught e, []⟩
    | .ok image_data_url =>
      match dictGetD data "command" (.str "") with
      | .error e => ⟨.uncaught e, []⟩
      | .ok cmdVal =>
        match stripAttr cmdVal with
        | .error e => ⟨.uncaught e, []⟩
        | .ok command => afterValidation env image_data_url command

/-- Process-wide mutable state of `app.py`: the single module-level
`client` binding, set once at import time (lines 18-22) and only ever read
afterwards.  `client_ok` records whether `genai.Client()` succeeded. -/
structure ServerState where
  client_ok : Bool
  deriving Repr, DecidableEq

/-- One request against the server: the handler body of `analyze_frame`
contains no assignment to any module-level name (no `global` statement, no
rebinding of `client` or `MODEL_NAME`), so the state after the request is
the state before it. -/
def handleRequest (s : ServerState) (env : Env) (data : Json) :
    HandlerOutput × ServerState :=
  (analyze_frame s.client_ok env data, s)

/-- A sequence of requests handled one after the other, threading the
process state. -/
def processRequests (s : ServerState) :
    List (Env × Json) → List HandlerOutput × ServerState
  | [] => ([], s)
  | r :: rs =>
    let p := handleRequest s r.1 r.2
    let q := processRequests p.2 rs
    (p.1 :: q.1, q.2)

/-- A request outcome that respects the error contract of the spec: an HTTP
response was produced (no exception escaped the handler), and any non-200
response body is a JSON object with a single `error` string field. -/
def responseWellFormed : HttpResult → Bool
  | .response status body =>
    if status = 200 then true
    else
      match body with
      | .obj [("error", .str _)] => true
      | _ => false
  | .uncaught _ => false

/-! Sample external worlds and request bodies used to instantiate the
theorems below at concrete inputs. -/

/-- An external world in which every external call fails: decoding rejects
the payload, materialization rejects the bytes, the model call raises and
parsing fails. -/
def envFail : Env where
  b64decode _ := .error "Invalid base64-encoded string: number of data characters (5) cannot be 1 more than a multiple of 4"
  openImage _ := .error "cannot identify image file"
  generate _ _ := .otherError "connection reset"
  jsonLoads _ := .error "Expecting value: line 1 column 1 (char 0)"

/-- An external world in which every step succeeds and the model replies
with the empty JSON array. -/
def envOk : Env where
  b64decode _ := .ok [255, 216, 255]
  openImage _ := .ok ⟨1⟩
  generate _ _ := .ok "[]"
  jsonLoads t := if t = "[]" then .ok (.arr []) else .error "Expecting value: line 1 column 1 (char 0)"

/-- The serialized detection array of the round-trip example. -/
def detLit : String :=
  "[\x7b\"box\":[0.1,0.2,0.3,0.4],\"name\":\"red cup\",\"color_hex\":\"#FF0000\"\x7d]"

/-- The parse of `detLit`: one detection object, keys in model order. -/
def detJson : Json :=
  .arr [.obj [("box", .arr [.num (1/10), .num (1/5), .num (3/10), .num (2/5)]),
              ("name", .str "red cup"), ("color_hex", .str "#FF0000")]]

/-- An external world whose model reply is exactly `detLit`, which parses
to `detJson`. -/
def envDet : Env where
  b64decode _ := .ok [255, 216, 255]
  openImage _ := .ok ⟨1⟩
  generate _ _ := .ok detLit
  jsonLoads t := if t = detLit then .ok detJson else .error "Expecting value: line 1 column 1 (char 0)"

/-- An external world whose model reply is prose, not JSON. -/
def envProse : Env where
  b64decode _ := .ok [255, 216, 255]
  openImage _ := .ok ⟨1⟩
  generate _ _ := .ok "I cannot help with that"
  jsonLoads _ := .error "Expecting value: line 1 column 1 (char 0)"

/-- An external world whose model reply parses to a bare JSON number. -/
def envNum : Env where
  b64decode _ := .ok [255, 216, 255]
  openImage _ := .ok ⟨1⟩
  generate _ _ := .ok "42"
  jsonLoads t := if t = "42" then .ok (.num 42) else .error "Expecting value: line 1 column 1 (char 0)"

/-- A well-formed request body with a data-URL image and a command. -/
def dataRedCup : Json :=
  .obj [("image", .str "data:image/jpeg;base64,/9j/4AAQ"),
        ("command", .str "find the red cup")]

/-! Helper lemmas shared by the claim theorems. -/

/-- A string that splits at a comma is nonempty, hence truthy. -/
theorem splitFirstComma_ne_empty {s : String} {p : String × String}
    (h : splitFirstComma s = some p) : s ≠ "" := by
  intro he
  have h0 : splitFirstComma "" = none := rfl
  rw [he, h0] at h
  exact Option.noConfusion h

/-- With the client initialized, an object body whose `image` field is the
string `s` and whose effective command value is the string `c`, the handler
reduces to the post-validation pipeline on `s` with the stripped command. -/
theorem analyze_frame_obj_str (env : Env) (fs : List (String × Json)) (s c : String)
    (himg : assocLookup fs "image" = some (.str s))
    (hcmd : (assocLookup fs "command").getD (.str "") = .str c) :
    analyze_frame true env (.obj fs) = afterValidation env (.str s) (pyStrip c) := by
  simp [analyze_frame, dictGet, dictGetD, himg, hcmd, stripAttr]

/-- Once the image string splits into a header and a payload, the pipeline
depends on the payload only: it base64-decodes it and proceeds. -/
theorem afterValidation_split (env : Env) (s cmd hdr payload : String)
    (hsplit : splitFirstComma s = some (hdr, payload)) :
    afterValidation env (.str s) cmd =
      match env.b64decode payload with
      | .error m => ⟨.response 500 (errBody ("Base64 decoding error: " ++ m)), []⟩
      | .ok image_bytes =>
        match env.openImage image_bytes with
        | .error m => ⟨.response 500 (errBody ("Image processing error: " ++ m)), []⟩
        | .ok img_pil => modelStep env cmd img_pil := by
  have hne : s ≠ "" := splitFirstComma_ne_empty hsplit
  simp [afterValidation, pyTruthy, hne, decodeStep, hsplit]

/-- When the model reply parses, `modelStep` returns the 200 envelope with
the parsed value and the command, and logs nothing. -/
theorem modelStep_success (env : Env) (cmd : String) (img_pil : PILImage)
    (text : String) (j : Json)
    (hgen : env.generate (prompt_text cmd) img_pil = .ok text)
    (hparse : env.jsonLoads text = .ok j) :
    modelStep env cmd img_pil =
      ⟨.response 200 (.obj [("success", .bool true), ("detections", j),
        ("command", .str cmd)]), []⟩ := by
  simp [modelStep, hgen, hparse]

/-- Composite success-path lemma: an object body with string image and
command, a splitting image, decodable payload and bytes, and a parsing
model reply produce the 200 envelope. -/
theorem analyze_frame_success (env : Env) (fs : List (String × Json))
    (s c hdr payload : String) (image_bytes : List Nat) (img_pil : PILImage)
    (text : String) (j : Json)
    (himg : assocLookup fs "image" = some (.str s))
    (hcmd : (assocLookup fs "command").getD (.str "") = .str c)
    (hsplit : splitFirstComma s = some (hdr, payload))
    (hb64 : env.b64decode payload = .ok image_bytes)
    (hopen : env.openImage image_bytes = .ok img_pil)
    (hgen : env.generate (prompt_text (pyStrip c)) img_pil = .ok text)
    (hparse : env.jsonLoads text = .ok j) :
    analyze_frame true env (.obj fs) =
      ⟨.response 200 (.obj [("success", .bool true), ("detections", j),
        ("command", .str (pyStrip c))]), []⟩ := by
  rw [analyze_frame_obj_str env fs s c himg hcmd,
    afterValidation_split env s (pyStrip c) hdr payload hsplit]
  simp only [hb64, hopen]
  exact modelStep_success env (pyStrip c) img_pil text j hgen hparse

/-- The handler with an uninitialized client is the constant 500 response. -/
theorem analyze_frame_clientNone (env : Env) (data : Json) :
    analyze_frame false env data =
      ⟨.response 500 (errBody "Gemini API client is not initialized. Check API Key."), []⟩ := rfl

/-- Every outcome of the model-call stage is a response whose non-200 forms
carry a single `error` field. -/
theorem modelStep_wellFormed (env : Env) (cmd : String) (img_pil : PILImage) :
    responseWellFormed (modelStep env cmd img_pil).result = true := by
  unfold modelStep
  split
  · simp [responseWellFormed, errBody]
  · simp [responseWellFormed, errBody]
  · split
    · simp [responseWellFormed, errBody]
    · simp [responseWellFormed]

/-- Every outcome of the post-validation pipeline is a response whose
non-200 forms carry a single `error` field: this region of the handler sits
inside `try` blocks. -/
theorem afterValidation_wellFormed (env : Env) (image_data_url : Json) (cmd : String) :
    responseWellFormed (afterValidation env image_data_url cmd).result = true := by
  unfold afterValidation
  split
  · simp [responseWellFormed, errBody]
  · split
    · simp [responseWellFormed, errBody]
    · split
      · simp [responseWellFormed, errBody]
      · exact modelStep_wellFormed env cmd _

/-- A 200 outcome of the model-call stage can only be the success envelope:
`success`, the parsed detections, and the stripped command. -/
theorem modelStep_200_inv (env : Env) (cmd : String) (img_pil : PILImage) (body : Json)
    (h : (modelStep env cmd img_pil).result = .response 200 body) :
    ∃ j, body = .obj [("success", .bool true), ("detections", j), ("command", .str cmd)] := by
  unfold modelStep at h
  split at h
  · simp at h
  · simp at h
  · split at h
    · simp at h
    · simp at h
      exact ⟨_, h.symm⟩

/-- A 200 outcome of the post-validation pipeline can only be the success
envelope. -/
theorem afterValidation_200_inv (env : Env) (image_data_url : Json) (cmd : String)
    (body : Json)
    (h : (afterValidation env image_data_url cmd).result = .response 200 body) :
    ∃ j, body = .obj [("success", .bool true), ("detections", j), ("command", .str cmd)] := by
  unfold afterValidation at h
  split at h
  · simp at h
  · split at h
    · simp at h
    · split at h
      · simp at h
      · exact modelStep_200_inv env cmd _ body h

/-- Every non-uncaught path of the full handler that yields a 200 yields
the success envelope with the stripped command. -/
theorem analyze_frame_200_inv (clientOk : Bool) (env : Env)
    (fs : List (String × Json)) (c : String)
    (hcmd : (assocLookup fs "command").getD (.str "") = .str c) (body : Json)
    (h : (analyze_frame clientOk env (.obj fs)).result = .response 200 body) :
    ∃ j, body = .obj [("success", .bool true), ("detections", j),
      ("command", .str (pyStrip c))] := by
  unfold analyze_frame at h
  rw [dictGet, dictGetD, hcmd] at h
  split at h
  · simp at h
  · exact afterValidation_200_inv env _ (pyStrip c) body h

/-- With an object body whose command field is absent or a string, every
handler outcome is a response and every non-200 response carries a single
`error` field: no exception escapes. -/
theorem analyze_frame_wellFormed (clientOk : Bool) (env : Env)
    (fs : List (String × Json))
    (hcmd : assocLookup fs "command" = none ∨
      ∃ c, assocLookup fs "command" = some (.str c)) :
    responseWellFormed (analyze_frame clientOk env (.obj fs)).result = true := by
  unfold analyze_frame
  rcases hcmd with h | ⟨c, h⟩ <;>
    · rw [dictGet, dictGetD, h]
      split
      · simp [responseWellFormed, errBody]
      · exact afterValidation_wellFormed env _ _

/-- The post-validation pipeline is a function of the payload after the
first comma: two image strings with equal payloads behave identically. -/
theorem afterValidation_payload_only (env : Env) (cmd : String)
    (s₁ s₂ h₁ h₂ payload : String)
    (hs₁ : splitFirstComma s₁ = some (h₁, payload))
    (hs₂ : splitFirstComma s₂ = some (h₂, payload)) :
    afterValidation env (.str s₁) cmd = afterValidation env (.str s₂) cmd := by
  rw [afterValidation_split env s₁ cmd h₁ payload hs₁,
    afterValidation_split env s₂ cmd h₂ payload hs₂]

/-! The claim theorems. -/

/-- C1: whenever the model reply parses as a JSON array of detections, the
handler returns a 200 response whose `detections` field is exactly the
parsed array — the same list, in the model output order, with no
re-sorting or per-element rewriting. -/
theorem detections_round_trip (env : Env) (fs : List (String × Json))
    (s c hdr payload : String) (image_bytes : List Nat) (img_pil : PILImage)
    (text : String) (dets : List Json)
    (himg : assocLookup fs "image" = some (.str s))
    (hcmd : (assocLookup fs "command").getD (.str "") = .str c)
    (hsplit : splitFirstComma s = some (hdr, payload))
    (hb64 : env.b64decode payload = .ok image_bytes)
    (hopen : env.openImage image_bytes = .ok img_pil)
    (hgen : env.generate (prompt_text (pyStrip c)) img_pil = .ok text)
    (hparse : env.jsonLoads text = .ok (.arr dets)) :
    analyze_frame true env (.obj fs) =
      ⟨.response 200 (.obj [("success", .bool true), ("detections", .arr dets),
        ("command", .str (pyStrip c))]), []⟩ :=
  analyze_frame_success env fs s c hdr payload image_bytes img_pil text (.arr dets)
    himg hcmd hsplit hb64 hopen hgen hparse

/-- Witness for C1 at the round-trip example of the spec: the model reply
`detLit` parses to the one-element detection array `detJson`, which appears
unchanged as the `detections` field of the 200 response. -/
theorem detections_round_trip_witness :
    assocLookup [("image", Json.str "data:image/jpeg;base64,/9j/4AAQ"),
        ("command", Json.str "find the red cup")] "image" =
      some (.str "data:image/jpeg;base64,/9j/4AAQ") ∧
    envDet.generate (prompt_text (pyStrip "find the red cup")) ⟨1⟩ = .ok detLit ∧
    envDet.jsonLoads detLit = .ok detJson ∧
    analyze_frame true envDet dataRedCup =
      ⟨.response 200 (.obj [("success", .bool true), ("detections", detJson),
        ("command", .str (pyStrip "find the red cup"))]), []⟩ :=
  ⟨rfl, rfl, by simp [envDet], by
    exact detections_round_trip envDet
      [("image", .str "data:image/jpeg;base64,/9j/4AAQ"),
       ("command", .str "find the red cup")]
      "data:image/jpeg;base64,/9j/4AAQ" "find the red cup"
      "data:image/jpeg;base64" "/9j/4AAQ" [255, 216, 255] ⟨1⟩ detLit
      [.obj [("box", .arr [.num (1/10), .num (1/5), .num (3/10), .num (2/5)]),
             ("name", .str "red cup"), ("color_hex", .str "#FF0000")]]
      rfl rfl rfl rfl rfl rfl (by simp [envDet, detJson])⟩

/-- C9: the success path performs no shape validation beyond JSON parsing —
any parsed JSON value whatsoever (object, number, string, boolean, null,
not only an array of detection objects) is returned as `detections` in a
200 response. -/
theorem no_shape_validation (env : Env) (fs : List (String × Json))
    (s c hdr payload : String) (image_bytes : List Nat) (img_pil : PILImage)
    (text : String) (j : Json)
    (himg : assocLookup fs "image" = some (.str s))
    (hcmd : (assocLookup fs "command").getD (.str "") = .str c)
    (hsplit : splitFirstComma s = some (hdr, payload))
    (hb64 : env.b64decode payload = .ok image_bytes)
    (hopen : env.openImage image_bytes = .ok img_pil)
    (hgen : env.generate (prompt_text (pyStrip c)) img_pil = .ok text)
    (hparse : env.jsonLoads text = .ok j) :
    analyze_frame true env (.obj fs) =
      ⟨.response 200 (.obj [("success", .bool true), ("detections", j),
        ("command", .str (pyStrip c))]), []⟩ :=
  analyze_frame_success env fs s c hdr payload image_bytes img_pil text j
    himg hcmd hsplit hb64 hopen hgen hparse

/-- Witness for C9: a model reply of `42` — a bare JSON number, nothing
like an array of detection objects — still produces a 200 response with
`detections` equal to that number. -/
theorem no_shape_validation_witness :
    envNum.generate (prompt_text (pyStrip "find the red cup")) ⟨1⟩ = .ok "42" ∧
    envNum.jsonLoads "42" = .ok (.num 42) ∧
    analyze_frame true envNum dataRedCup =
      ⟨.response 200 (.obj [("success", .bool true), ("detections", .num 42),
        ("command", .str (pyStrip "find the red cup"))]), []⟩ :=
  ⟨rfl, by simp [envNum], by
    exact no_shape_validation envNum
      [("image", .str "data:image/jpeg;base64,/9j/4AAQ"),
       ("command", .str "find the red cup")]
      "data:image/jpeg;base64,/9j/4AAQ" "find the red cup"
      "data:image/jpeg;base64" "/9j/4AAQ" [255, 216, 255] ⟨1⟩ "42" (.num 42)
      rfl rfl rfl rfl rfl rfl (by simp [envNum])⟩

/-- C3: with the client left uninitialized at startup, every request —
whatever its body, even one that would otherwise crash or fail validation —
receives the constant 500 client-not-initialized response, the external
world is never consulted, and across any sequence of requests the answer
never changes (initialization is not retried). -/
theorem uninitialized_client_always_500 (env : Env) (data : Json)
    (reqs : List (Env × Json)) :
    analyze_frame false env data =
      ⟨.response 500 (errBody "Gemini API client is not initialized. Check API Key."), []⟩ ∧
    (processRequests ⟨false⟩ reqs).1 = reqs.map (fun _ =>
      ⟨.response 500 (errBody "Gemini API client is not initialized. Check API Key."), []⟩) := by
  refine ⟨rfl, ?_⟩
  induction reqs with
  | nil => rfl
  | cons r rs ih => simp [processRequests, handleRequest, ih, analyze_frame_clientNone]

/-- C8: no request handler writes process-wide state: one request leaves
the server state untouched, any sequence of requests leaves it untouched,
and the outcome of every request in a sequence is the one computed from
the initial state alone — previous requests have no influence. -/
theorem no_shared_state_writes (s : ServerState) (env : Env) (data : Json)
    (reqs : List (Env × Json)) :
    (handleRequest s env data).2 = s ∧
    (processRequests s reqs).2 = s ∧
    (processRequests s reqs).1 =
      reqs.map (fun r => analyze_frame s.client_ok r.1 r.2) := by
  refine ⟨rfl, ?_, ?_⟩
  · induction reqs with
    | nil => rfl
    | cons r rs ih => simp [processRequests, handleRequest, ih]
  · induction reqs with
    | nil => rfl
    | cons r rs ih => simp [processRequests, handleRequest, ih]

/-- Counterexample to C2 as stated: with the client initialized and the
`image` field absent, the body `{"command": 5}` does NOT get the 400
`No image data received` response — `data.get("command","").strip()` runs
before the presence check and its `AttributeError` escapes the handler, so
the claimed "for any value of `command`" fails at this input. -/
theorem missing_image_counterexample :
    analyze_frame true envFail (.obj [("command", .num 5)]) =
      ⟨.uncaught "AttributeError: object has no attribute strip", []⟩ ∧
    (analyze_frame true envFail (.obj [("command", .num 5)])).result ≠
      .response 400 (errBody "No image data received") :=
  ⟨rfl, fun h => by simp [analyze_frame, dictGet, dictGetD, stripAttr, assocLookup] at h⟩

/-- C2 amended: for every JSON-object request body whose `image` field is
absent or the empty string and whose `command` field is absent or a string
(with the client initialized), the handler returns exactly the JSON body
`{"error": "No image data received"}` with status 400; the result is the
same for every external world, so no decoding and no model call happens. -/
theorem missing_image_400 (env : Env) (fs : List (String × Json))
    (himg : assocLookup fs "image" = none ∨ assocLookup fs "image" = some (.str ""))
    (hcmd : assocLookup fs "command" = none ∨
      ∃ c, assocLookup fs "command" = some (.str c)) :
    analyze_frame true env (.obj fs) =
      ⟨.response 400 (errBody "No image data received"), []⟩ := by
  rcases hcmd with hc | ⟨c, hc⟩ <;> rcases himg with hi | hi <;>
    simp [analyze_frame, dictGet, dictGetD, hi, hc, stripAttr, afterValidation, pyTruthy]

/-- Witness for the amended C2 at the body `{"command": "find cups"}`. -/
theorem missing_image_400_witness :
    (assocLookup [("command", Json.str "find cups")] "image" = none ∨
      assocLookup [("command", Json.str "find cups")] "image" = some (.str "")) ∧
    analyze_frame true envFail (.obj [("command", .str "find cups")]) =
      ⟨.response 400 (errBody "No image data received"), []⟩ :=
  ⟨Or.inl rfl,
    missing_image_400 envFail [("command", .str "find cups")]
      (Or.inl rfl) (Or.inr ⟨"find cups", rfl⟩)⟩

/-- C4: when the model reply does not parse as JSON, the handler returns
HTTP 500 with the fixed generic message — a closed constant, so the raw
model text cannot occur in the response body through this branch — while
the raw text is written to the operational log. -/
theorem invalid_model_json_500 (env : Env) (fs : List (String × Json))
    (s c hdr payload : String) (image_bytes : List Nat) (img_pil : PILImage)
    (text m : String)
    (himg : assocLookup fs "image" = some (.str s))
    (hcmd : (assocLookup fs "command").getD (.str "") = .str c)
    (hsplit : splitFirstComma s = some (hdr, payload))
    (hb64 : env.b64decode payload = .ok image_bytes)
    (hopen : env.openImage image_bytes = .ok img_pil)
    (hgen : env.generate (prompt_text (pyStrip c)) img_pil = .ok text)
    (hparse : env.jsonLoads text = .error m) :
    analyze_frame true env (.obj fs) =
      ⟨.response 500 (errBody "Gemini did not return valid JSON or format was incorrect."),
        ["JSON Decode Error: " ++ m, "Gemini Raw Output: " ++ text]⟩ := by
  rw [analyze_frame_obj_str env fs s c himg hcmd,
    afterValidation_split env s (pyStrip c) hdr payload hsplit]
  simp only [hb64, hopen]
  simp [modelStep, hgen, hparse]

/-- Witness for C4: the prose reply `I cannot help with that` yields the
500 generic-message response, and the raw text appears in the log lines
only. -/
theorem invalid_model_json_500_witness :
    envProse.generate (prompt_text (pyStrip "find the red cup")) ⟨1⟩ =
      .ok "I cannot help with that" ∧
    envProse.jsonLoads "I cannot help with that" =
      .error "Expecting value: line 1 column 1 (char 0)" ∧
    analyze_frame true envProse dataRedCup =
      ⟨.response 500 (errBody "Gemini did not return valid JSON or format was incorrect."),
        ["JSON Decode Error: Expecting value: line 1 column 1 (char 0)",
         "Gemini Raw Output: I cannot help with that"]⟩ :=
  ⟨rfl, rfl, by
    exact invalid_model_json_500 envProse
      [("image", .str "data:image/jpeg;base64,/9j/4AAQ"),
       ("command", .str "find the red cup")]
      "data:image/jpeg;base64,/9j/4AAQ" "find the red cup"
      "data:image/jpeg;base64" "/9j/4AAQ" [255, 216, 255] ⟨1⟩
      "I cannot help with that" "Expecting value: line 1 column 1 (char 0)"
      rfl rfl rfl rfl rfl rfl rfl⟩

/-- Counterexample to C5 as stated: the request body `[]` is valid JSON,
yet `data.get("image")` raises `AttributeError` outside every `try` block;
the exception escapes the handler uncaught and the outcome is not a JSON
error response. -/
theorem failure_escapes_counterexample :
    analyze_frame true envFail (.arr []) =
      ⟨.uncaught "AttributeError: object has no attribute get", []⟩ ∧
    responseWellFormed (analyze_frame true envFail (.arr [])).result = false :=
  ⟨rfl, rfl⟩

/-- C5 amended: for every request body that is a JSON object whose
`command` field — when present — is a string, every failure inside the
handler is caught and converted to a JSON error body: the handler always
returns an HTTP response, and every non-200 response body is a JSON object
with a single `error` field. -/
theorem failures_caught (clientOk : Bool) (env : Env)
    (fs : List (String × Json))
    (hcmd : assocLookup fs "command" = none ∨
      ∃ c, assocLookup fs "command" = some (.str c)) :
    responseWellFormed (analyze_frame clientOk env (.obj fs)).result = true :=
  analyze_frame_wellFormed clientOk env fs hcmd

/-- Witness for the amended C5 at a body whose image is malformed and whose
external world fails every call. -/
theorem failures_caught_witness :
    (assocLookup [("image", Json.str "garbage"), ("command", Json.str "x")] "command" = none ∨
      ∃ c, assocLookup [("image", Json.str "garbage"), ("command", Json.str "x")] "command" =
        some (.str c)) ∧
    responseWellFormed (analyze_frame true envFail
      (.obj [("image", .str "garbage"), ("command", .str "x")])).result = true :=
  ⟨Or.inr ⟨"x", rfl⟩,
    failures_caught true envFail [("image", .str "garbage"), ("command", .str "x")]
      (Or.inr ⟨"x", rfl⟩)⟩

/-- Counterexample to C6 as stated: the input command `" x "` is echoed as
`"x"` in the 200 response — `data.get("command","").strip()` trims the
command before it is embedded in the prompt and echoed, so the echo is not
verbatim. -/
theorem command_echo_counterexample :
    analyze_frame true envOk (.obj [("image", .str "h,p"), ("command", .str " x ")]) =
      ⟨.response 200 (.obj [("success", .bool true), ("detections", .arr []),
        ("command", .str "x")]), []⟩ ∧
    Json.str "x" ≠ Json.str " x " :=
  ⟨rfl, by simp⟩

/-- C6 amended: every success (200) response echoes the
whitespace-stripped input command in its `command` field — commands with
no leading or trailing whitespace are echoed verbatim — and an absent
command defaults to the empty string. -/
theorem command_echoed_stripped (clientOk : Bool) (env : Env)
    (fs : List (String × Json)) (c : String)
    (hcmd : (assocLookup fs "command").getD (.str "") = .str c) (body : Json)
    (h200 : (analyze_frame clientOk env (.obj fs)).result = .response 200 body) :
    ∃ j, body = .obj [("success", .bool true), ("detections", j),
      ("command", .str (pyStrip c))] :=
  analyze_frame_200_inv clientOk env fs c hcmd body h200

/-- Witness for the amended C6: the command `" x "` comes back as the
stripped `"x"` in the success envelope. -/
theorem command_echoed_stripped_witness :
    (assocLookup [("image", Json.str "h,p"), ("command", Json.str " x ")] "command").getD
      (.str "") = .str " x " ∧
    (analyze_frame true envOk
      (.obj [("image", .str "h,p"), ("command", .str " x ")])).result =
      .response 200 (.obj [("success", .bool true), ("detections", .arr []),
        ("command", .str "x")]) ∧
    ∃ j, (Json.obj [("success", .bool true), ("detections", .arr []),
        ("command", .str "x")]) =
      .obj [("success", .bool true), ("detections", j),
        ("command", .str (pyStrip " x "))] :=
  ⟨rfl, rfl,
    command_echoed_stripped true envOk
      [("image", .str "h,p"), ("command", .str " x ")] " x " rfl
      (.obj [("success", .bool true), ("detections", .arr []),
        ("command", .str "x")]) rfl⟩

/-- C7: the decode step splits the image string at the first comma and
base64-decodes the payload; a nonempty image string with no comma yields
the 500 decode-error response raised by tuple unpacking, and a payload the
decoder rejects yields the 500 decode-error response carrying the decoder
message — in both cases the handler stops with that response, so no image
materialization and no model call can follow. -/
theorem decode_error_500 (env : Env) (fs : List (String × Json)) (s c : String)
    (himg : assocLookup fs "image" = some (.str s))
    (hcmd : (assocLookup fs "command").getD (.str "") = .str c)
    (hs : s ≠ "") :
    (splitFirstComma s = none →
      analyze_frame true env (.obj fs) =
        ⟨.response 500 (errBody
          "Base64 decoding error: not enough values to unpack (expected 2, got 1)"), []⟩) ∧
    (∀ hdr payload m, splitFirstComma s = some (hdr, payload) →
      env.b64decode payload = .error m →
      analyze_frame true env (.obj fs) =
        ⟨.response 500 (errBody ("Base64 decoding error: " ++ m)), []⟩) := by
  constructor
  · intro hnone
    rw [analyze_frame_obj_str env fs s c himg hcmd]
    simp [afterValidation, pyTruthy, hs, decodeStep, hnone]
  · intro hdr payload m hsplit hb64
    rw [analyze_frame_obj_str env fs s c himg hcmd,
      afterValidation_split env s (pyStrip c) hdr payload hsplit]
    simp [hb64]

/-- Witness for C7: the comma-free image `"nocomma"` produces the
unpacking 500, and the image `"a,b"` whose payload `"b"` the decoder
rejects produces the 500 carrying the decoder message. -/
theorem decode_error_500_witness :
    splitFirstComma "nocomma" = none ∧
    analyze_frame true envFail (.obj [("image", .str "nocomma"), ("command", .str "x")]) =
      ⟨.response 500 (errBody
        "Base64 decoding error: not enough values to unpack (expected 2, got 1)"), []⟩ ∧
    splitFirstComma "a,b" = some ("a", "b") ∧
    envFail.b64decode "b" = .error
      "Invalid base64-encoded string: number of data characters (5) cannot be 1 more than a multiple of 4" ∧
    analyze_frame true envFail (.obj [("image", .str "a,b"), ("command", .str "x")]) =
      ⟨.response 500 (errBody
        ("Base64 decoding error: " ++
          "Invalid base64-encoded string: number of data characters (5) cannot be 1 more than a multiple of 4")), []⟩ :=
  ⟨rfl,
    (decode_error_500 envFail [("image", .str "nocomma"), ("command", .str "x")]
      "nocomma" "x" rfl rfl (by decide)).1 rfl,
    rfl, rfl,
    (decode_error_500 envFail [("image", .str "a,b"), ("command", .str "x")]
      "a,b" "x" rfl rfl (by decide)).2 "a" "b"
      "Invalid base64-encoded string: number of data characters (5) cannot be 1 more than a multiple of 4"
      rfl rfl⟩

/-- C10: the data-URL header before the first comma is never inspected —
two image strings with the same substring after their first comma produce
identical handler outcomes (response and logs), whatever the header says. -/
theorem header_ignored (env : Env) (fs : List (String × Json))
    (s₁ s₂ h₁ h₂ payload : String)
    (hs₁ : splitFirstComma s₁ = some (h₁, payload))
    (hs₂ : splitFirstComma s₂ = some (h₂, payload)) :
    analyze_frame true env (.obj (("image", .str s₁) :: fs)) =
      analyze_frame true env (.obj (("image", .str s₂) :: fs)) := by
  have key : ∀ s : String, analyze_frame true env (.obj (("image", .str s) :: fs)) =
      match stripAttr ((assocLookup fs "command").getD (.str "")) with
      | .error e => ⟨.uncaught e, []⟩
      | .ok command => afterValidation env (.str s) command := by
    intro s
    cases hc : stripAttr ((assocLookup fs "command").getD (.str "")) with
    | error e => simp [analyze_frame, dictGet, dictGetD, assocLookup, hc]
    | ok command => simp [analyze_frame, dictGet, dictGetD, assocLookup, hc]
  rw [key s₁, key s₂]
  cases hc : stripAttr ((assocLookup fs "command").getD (.str "")) with
  | error e => rfl
  | ok command =>
    exact afterValidation_payload_only env command s₁ s₂ h₁ h₂ payload hs₁ hs₂

/-- Witness for C10: a proper data URL and an image value with a junk
header but the same payload produce identical outcomes. -/
theorem header_ignored_witness :
    splitFirstComma "data:image/png;base64,AAAA" = some ("data:image/png;base64", "AAAA") ∧
    splitFirstComma "x,AAAA" = some ("x", "AAAA") ∧
    analyze_frame true envOk
        (.obj [("image", .str "data:image/png;base64,AAAA"), ("command", .str "cups")]) =
      analyze_frame true envOk
        (.obj [("image", .str "x,AAAA"), ("command", .str "cups")]) :=
  ⟨rfl, rfl,
    header_ignored envOk [("command", .str "cups")]
      "data:image/png;base64,AAAA" "x,AAAA" "data:image/png;base64" "x" "AAAA" rfl rfl⟩

end ColorVision
